import Mathlib

/-
Verification of the QR-code security checker (src/qr_code/qr-security-checker.py)
against its natural-language specification.

The Python source is shallowly embedded below.  Strings are Lean `String`s
(sequences of Unicode code points, as in Python); all scanning primitives are
written over `List Char` so that every definition evaluates by kernel
reduction.  The network (requests.head) is modelled by an explicit oracle
`String → HeadResult` passed to the functions that perform requests.
-/

namespace QrSec

/-- Outcome of one `requests.head` call: either a raised
`requests.exceptions.RequestException` carrying its message, or a response
with a status code and an optional `Location` header value. -/
inductive HeadResult where
  | err (msg : String)
  | resp (status : Nat) (location : Option String)

/-- A network oracle: what `requests.head` returns for each URL. -/
abbrev Oracle := String → HeadResult

/- ---------- character-list primitives (Python str operations) ---------- -/

/-- Models Python `str.startswith`: `begins p cs` is true when the pattern
`p` is an initial segment of `cs`. -/
def begins : List Char → List Char → Bool
  | [], _ => true
  | _ :: _, [] => false
  | p :: ps, c :: cs => p == c && begins ps cs

/-- Models Python `str.endswith` (used for the `$`-anchored regexes). -/
def endsW (p cs : List Char) : Bool := begins p.reverse cs.reverse

/-- Models Python substring containment `p in s` (used by `re.search` on
unanchored literal patterns). -/
def hasSub (p : List Char) : List Char → Bool
  | [] => begins p []
  | c :: cs => begins p (c :: cs) || hasSub p cs

/-- Models Python single-character containment `c in s`. -/
def lmem (c : Char) (cs : List Char) : Bool := cs.any (fun x => x == c)

/-- Models Python `str.split(sep)` for a one-character separator:
always returns at least one (possibly empty) piece. -/
def splitC (sep : Char) : List Char → List (List Char)
  | [] => [[]]
  | c :: cs =>
    let r := splitC sep cs
    if c == sep then [] :: r
    else
      match r with
      | [] => [[c]]
      | h :: t => (c :: h) :: t

/-- Models Python `sep.join(list)`. -/
def joinWith (sep : String) : List String → String
  | [] => ""
  | [s] => s
  | s :: t :: rest => s ++ sep ++ joinWith sep (t :: rest)

/-- Worker for `dedupF`: drops elements already seen. -/
def dedupAux : List String → List String → List String
  | [], _ => []
  | s :: rest, seen =>
    if seen.contains s then dedupAux rest seen
    else s :: dedupAux rest (s :: seen)

/-- Models iterating a Python `set` built from a list: duplicates removed,
first occurrence kept (CPython's actual set iteration order is
hash-dependent; only the count and membership of the result matter to any
property below). -/
def dedupF (l : List String) : List String := dedupAux l []

/-- Splits a character list at the first occurrence of the pattern `pat`,
returning the part before it and the part after it (pattern excluded). -/
def breakAtSub (pat : List Char) : List Char → Option (List Char × List Char)
  | [] => if begins pat [] then some ([], []) else none
  | c :: cs =>
    if begins pat (c :: cs) then some ([], List.drop pat.length (c :: cs))
    else
      match breakAtSub pat cs with
      | none => none
      | some (a, b) => some (c :: a, b)

/-- The character list of `"http://"`. -/
def httpP : List Char := ['h', 't', 't', 'p', ':', '/', '/']

/-- The character list of `"https://"`. -/
def httpsP : List Char := ['h', 't', 't', 'p', 's', ':', '/', '/']

/-- The character list of `"://"`. -/
def sepP : List Char := [':', '/', '/']

/-- Lowercases a string (ASCII case folding, which is all the
case-insensitive regexes below need). -/
def lowerS (s : String) : String := ⟨s.data.map Char.toLower⟩

/- ---------- urllib.parse models ---------- -/

/-- Characters allowed in a URL scheme after the first letter. -/
def schemeChar (c : Char) : Bool :=
  c.isAlpha || c.isDigit || c == '+' || c == '-' || c == '.'

/-- Splits a character list at the first `':'`. -/
def colonSplit : List Char → Option (List Char × List Char)
  | [] => none
  | c :: cs =>
    if c == ':' then some ([], cs)
    else
      match colonSplit cs with
      | none => none
      | some (a, b) => some (c :: a, b)

/-- Models scheme recognition of `urllib.parse.urlparse`: if the text before
the first `':'` is a nonempty run of scheme characters starting with a
letter, it is the (lowercased) scheme and the rest follows; otherwise the
scheme is empty and the whole string is left in place. -/
def pySchemeSplit (s : String) : String × String :=
  match colonSplit s.data with
  | some (p :: ps, post) =>
    if p.isAlpha && (p :: ps).all schemeChar then
      (⟨(p :: ps).map Char.toLower⟩, ⟨post⟩)
    else ("", s)
  | _ => ("", s)

/-- The scheme recognized by `urllib.parse.urlparse` (empty if none). -/
def pyScheme (s : String) : String := (pySchemeSplit s).1

/-- The netloc recognized by `urllib.parse.urlparse`: the text between a
leading `"//"` (after the scheme) and the next `/`, `?` or `#`. -/
def pyNetloc (s : String) : List Char :=
  let rest := (pySchemeSplit s).2.data
  if begins ['/', '/'] rest then
    (rest.drop 2).takeWhile (fun c => !(c == '/') && !(c == '?') && !(c == '#'))
  else []

/-- Models the `ValueError("Invalid IPv6 URL")` check of
`urllib.parse.urlparse`: parsing succeeds unless the netloc contains exactly
one of `'['`, `']'`. -/
def urlparseOk (s : String) : Bool :=
  lmem '[' (pyNetloc s) == lmem ']' (pyNetloc s)

/-- Characters that may appear in the host segment of a URL (everything up
to the first `/`, `?` or `#`). -/
def hostChar (c : Char) : Bool := !(c == '/') && !(c == '?') && !(c == '#')

/-- The schemes urllib.parse considers capable of relative resolution
(`uses_relative`); for any other scheme `urljoin` returns the reference
unchanged. -/
def uses_relative : List String :=
  ["", "ftp", "http", "gopher", "nntp", "imap", "wais", "file", "https",
   "shttp", "mms", "prospero", "rtsp", "rtspu", "sftp", "svn", "svn+ssh",
   "ws", "wss"]

/-- Appends path segments onto an accumulator the way `urljoin`'s
resolution loop does: `".."` pops the last accumulated segment (silently on
an empty accumulator), `"."` is skipped, anything else is appended. -/
def resolveSegs : List (List Char) → List (List Char) → List (List Char)
  | acc, [] => acc
  | acc, seg :: rest =>
    if seg = ['.', '.'] then resolveSegs acc.dropLast rest
    else if seg = ['.'] then resolveSegs acc rest
    else resolveSegs (acc ++ [seg]) rest

/-- Dot-segment resolution of a segment list, with `urljoin`'s final rule:
a trailing `"."` or `".."` leaves a trailing empty segment. -/
def resolveDots (segs : List (List Char)) : List (List Char) :=
  match segs.getLast? with
  | some s =>
    if s = ['.'] ∨ s = ['.', '.'] then resolveSegs [] segs ++ [[]]
    else resolveSegs [] segs
  | none => resolveSegs [] segs

/-- Joins character lists with a separator character (Python
`sep.join(...)` over path segments). -/
def joinCharLists (sep : Char) : List (List Char) → List Char
  | [] => []
  | [s] => s
  | s :: t :: rest => s ++ sep :: joinCharLists sep (t :: rest)

/-- Resolves dot segments and reassembles a path, mirroring
`'/'.join(resolved_path) or '/'` followed by `urlunsplit`'s rule that a
nonempty path after a netloc starts with `'/'`. -/
def pathJoin (segs : List (List Char)) : List Char :=
  let p := joinCharLists '/' (resolveDots segs)
  if p.isEmpty then ['/']
  else if begins ['/'] p then p
  else '/' :: p

/-- Drops the last path segment of the base unless it is empty
(`if base_parts[-1] != '': del base_parts[-1]`). -/
def baseDir (parts : List (List Char)) : List (List Char) :=
  if parts.getLast? = some [] then parts else parts.dropLast

/-- Keeps the first and last segments and removes empty segments in
between (`segments[1:-1] = filter(None, segments[1:-1])`, applied by
`urljoin` in the relative-path case). -/
def midFilterAux : List (List Char) → List (List Char)
  | [] => []
  | [b] => [b]
  | b :: c :: rest =>
    if b.isEmpty then midFilterAux (c :: rest)
    else b :: midFilterAux (c :: rest)

/-- Keeps the first segment and filters the middle ones. -/
def midFilter : List (List Char) → List (List Char)
  | [] => []
  | a :: rest => a :: midFilterAux rest

/-- Splits a `path?query#fragment` tail into its three components, the way
`urlparse` does (query up to the first `'#'`, fragment after it). -/
def splitTail (t : List Char) : List Char × List Char × List Char :=
  let p := t.takeWhile (fun c => !(c == '?') && !(c == '#'))
  let a := t.drop p.length
  let q := if begins ['?'] a then (a.drop 1).takeWhile (fun c => !(c == '#')) else []
  let h := a.drop (if begins ['?'] a then 1 + q.length else 0)
  let f := if begins ['#'] h then h.drop 1 else []
  (p, q, f)

/-- Reassembles query and fragment the way `urlunparse` does: the `'?'`
and `'#'` markers appear only when the component is nonempty. -/
def unsplitQF (q f : List Char) : List Char :=
  (if q.isEmpty then [] else '?' :: q) ++ (if f.isEmpty then [] else '#' :: f)

/-- The body of `urljoin` once the reference's scheme is known to match the
base's: `schLower` is the (lowercased) common scheme, `bnetloc` the base's
netloc, `bafter` what follows it in the base (path, query, fragment), and
`r` the reference with any scheme prefix stripped.  The cases are those of
`urllib.parse.urljoin`: a network-path reference keeps its own netloc and
path; a reference with an empty path keeps the base's path and, when its
own query is empty, the base's query; a path-absolute reference is
dot-resolved on its own; a relative path is merged with the base's
directory segments (empty middle segments dropped) and then dot-resolved. -/
def joinNoScheme (schLower : String) (bnetloc bafter r : List Char) : String :=
  let bpath := (splitTail bafter).1
  let bquery := (splitTail bafter).2.1
  let isNl := begins ['/', '/'] r
  let rnl := if isNl then (r.drop 2).takeWhile hostChar else []
  if isNl && !rnl.isEmpty then
    let rrest := (r.drop 2).drop rnl.length
    ⟨schLower.data ++ sepP ++ rnl ++ (splitTail rrest).1 ++
      unsplitQF (splitTail rrest).2.1 (splitTail rrest).2.2⟩
  else
    let r2 := if isNl then (r.drop 2).drop rnl.length else r
    let rpath := (splitTail r2).1
    let rquery := (splitTail r2).2.1
    let rfrag := (splitTail r2).2.2
    if rpath.isEmpty then
      ⟨schLower.data ++ sepP ++ bnetloc ++ bpath ++
        unsplitQF (if rquery.isEmpty then bquery else rquery) rfrag⟩
    else if begins ['/'] rpath then
      ⟨schLower.data ++ sepP ++ bnetloc ++ pathJoin (splitC '/' rpath) ++
        unsplitQF rquery rfrag⟩
    else
      ⟨schLower.data ++ sepP ++ bnetloc ++
        pathJoin (midFilter (baseDir (splitC '/' bpath) ++ splitC '/' rpath)) ++
        unsplitQF rquery rfrag⟩

/-- Models `urllib.parse.urljoin(base, ref)`.  An empty reference returns
the base.  When the reference carries its own scheme different from the
base's — e.g. a `Location` of `"ftp://evil/x"` or `"javascript:alert(1)"`,
which fail the source's lowercase `startswith(('http://', 'https://'))`
test — or when the common scheme is not in `uses_relative`, the reference
is returned UNCHANGED, exactly as urllib does; only then does relative
resolution run.  Modelled scope: hierarchical bases containing `"://"`
(the checker only joins against its resolver's input URL; a base without
`"://"` returns the reference); parameter (`';'`) components are treated
as ordinary path characters. -/
def urljoin (base ref : String) : String :=
  if ref.data.isEmpty then base
  else
    match breakAtSub sepP base.data with
    | none => ref
    | some (bsch, rest) =>
      let bschLower : String := ⟨bsch.map Char.toLower⟩
      let rsch := (pySchemeSplit ref).1
      let sch := if rsch == "" then bschLower else rsch
      if !(sch == bschLower) || !(uses_relative.contains sch) then ref
      else
        joinNoScheme sch (rest.takeWhile hostChar)
          (rest.drop (rest.takeWhile hostChar).length)
          (if rsch == "" then ref.data else (pySchemeSplit ref).2.data)

/-- Value of a hexadecimal digit, if any. -/
def hexVal (c : Char) : Option Nat :=
  if '0' ≤ c ∧ c ≤ '9' then some (c.toNat - '0'.toNat)
  else if 'a' ≤ c ∧ c ≤ 'f' then some (c.toNat - 'a'.toNat + 10)
  else if 'A' ≤ c ∧ c ≤ 'F' then some (c.toNat - 'A'.toNat + 10)
  else none

/-- Percent-decoding on characters: a valid `%XX` escape becomes the
character with that code, anything else is kept as is. -/
def unquoteL : List Char → List Char
  | [] => []
  | '%' :: a :: b :: rest2 =>
    match hexVal a, hexVal b with
    | some x, some y => Char.ofNat (16 * x + y) :: unquoteL rest2
    | _, _ => '%' :: unquoteL (a :: b :: rest2)
  | c :: rest => c :: unquoteL rest

/-- Models `urllib.parse.unquote` (single-byte escapes; multi-byte UTF-8
escape sequences are not modelled, no claim exercises them). -/
def pyUnquote (s : String) : String := ⟨unquoteL s.data⟩

/- ---------- tldextract model ---------- -/

/-- The subset of the public-suffix list relevant to the URLs appearing in
the configuration sets and the concrete inputs below (single-label suffixes
only; multi-label suffixes such as `co.uk` are not modelled, no claim
exercises them). -/
def pslSuffixes : List String :=
  ["com", "net", "org", "io", "co", "ly", "gl", "cc", "at", "one",
   "lol", "asia", "gd", "uk", "ru", "info", "edu", "gov"]

/-- Host part of a URL as `tldextract`'s lenient netloc extraction sees it:
strip an optional scheme (or a leading `"//"`), cut at the first `/`, `?`
or `#`, drop userinfo before `'@'` and a port after `':'`. -/
def hostOf (s : String) : List Char :=
  let rest :=
    match breakAtSub sepP s.data with
    | some (sch, r) =>
      if sch.all schemeChar then r
      else if begins ['/', '/'] s.data then s.data.drop 2 else s.data
    | none => if begins ['/', '/'] s.data then s.data.drop 2 else s.data
  let seg := rest.takeWhile (fun c => !(c == '/') && !(c == '?') && !(c == '#'))
  let afterAt := (seg.reverse.takeWhile (fun c => !(c == '@'))).reverse
  afterAt.takeWhile (fun c => !(c == ':'))

/-- The `subdomain` / `domain` / `suffix` triple that `tldextract.extract`
returns. -/
structure DomainInfo where
  subdomain : String
  domain : String
  suffix : String
deriving DecidableEq

/-- Models `tldextract.extract`: split the host at dots, take the public
suffix if the last label is one, the label before it as the domain, and the
remaining labels as the subdomain. -/
def tldextract (url : String) : DomainInfo :=
  let labels := splitC '.' (hostOf url)
  match labels.getLast? with
  | none => ⟨"", "", ""⟩
  | some lastL =>
    let front := labels.dropLast
    if pslSuffixes.contains ⟨lastL⟩ then
      match front.getLast? with
      | none => ⟨"", "", ⟨lastL⟩⟩
      | some dom =>
        ⟨joinWith "." (front.dropLast.map (fun l => (⟨l⟩ : String))), ⟨dom⟩, ⟨lastL⟩⟩
    else
      ⟨joinWith "." ((labels.dropLast).map (fun l => (⟨l⟩ : String))), ⟨lastL⟩, ""⟩

/-- Models the `registered_domain` property of a `tldextract` result:
`domain + "." + suffix` when both parts are nonempty, else `""`. -/
def registeredDomain (di : DomainInfo) : String :=
  if di.domain == "" || di.suffix == "" then ""
  else di.domain ++ "." ++ di.suffix

/- ---------- static configuration from the source ---------- -/

/-- Known URL shortener domains (module-level set `url_shorteners`). -/
def url_shorteners : List String :=
  ["bit.ly", "tinyurl.com", "t.co", "goo.gl", "tiny.cc",
   "ow.ly", "is.gd", "buff.ly", "adf.ly", "bitly.com",
   "rebrand.ly", "cutt.ly", "shorturl.at", "tiny.one",
   "rotf.lol", "shorturl.asia"]

/-- Known safe domains (module-level set `safe_domains`). -/
def safe_domains : List String :=
  ["google.com", "microsoft.com", "apple.com", "amazon.com", "github.com"]

/-- The homoglyph map (module-level dict `homoglyph_map`): for each ASCII
letter, the visually similar characters that stand in for it.  The
non-ASCII entries are Cyrillic letters; note that the ASCII digit `'1'` is
listed for both `'i'` and `'l'`. -/
def homoglyph_map : List (Char × List Char) :=
  [('a', ['а']), ('b', ['Ь', 'б']), ('c', ['с']), ('e', ['е']),
   ('h', ['н']), ('i', ['і', '1']), ('l', ['і', '1']), ('o', ['о']),
   ('p', ['р']), ('s', ['ѕ']), ('t', ['т']), ('x', ['х']), ('y', ['у']),
   ('z', ['ѕ'])]

/-- Every character appearing on the right-hand side of `homoglyph_map`:
the fixed confusable-character set. -/
def confusables : List Char := (homoglyph_map.map Prod.snd).join

/-- The suspicious patterns (module-level list `suspicious_patterns`),
each given as its regex text paired with the Boolean matcher the regex
denotes: `(?i)…$` patterns are case-insensitive suffix tests, `(?i)…`
patterns are case-insensitive substring tests, and the last two are plain
substring tests. -/
def suspicious_patterns : List (String × (String → Bool)) :=
  [("(?i)\\.exe$", fun s => endsW ".exe".data (lowerS s).data),
   ("(?i)\\.bat$", fun s => endsW ".bat".data (lowerS s).data),
   ("(?i)\\.ps1$", fun s => endsW ".ps1".data (lowerS s).data),
   ("(?i)phish", fun s => hasSub "phish".data (lowerS s).data),
   ("(?i)login", fun s => hasSub "login".data (lowerS s).data),
   ("(?i)password", fun s => hasSub "password".data (lowerS s).data),
   ("(?i)bank", fun s => hasSub "bank".data (lowerS s).data),
   ("(?i)wallet", fun s => hasSub "wallet".data (lowerS s).data),
   ("data:text/html", fun s => hasSub "data:text/html".data s.data),
   ("javascript:", fun s => hasSub "javascript:".data s.data)]

/- ---------- source functions ---------- -/

/-- Models `is_shortlink`: the registered domain is in the shortener set
(`tldextract` never raises here, so the `except` branch is dead). -/
def is_shortlink (url : String) : Bool :=
  url_shorteners.contains (registeredDomain (tldextract url))

/-- The redirect status codes recognized by `safely_resolve_url`. -/
def redirectCodes : List Nat := [301, 302, 303, 307, 308]

/-- The next value of `current_url` computed from a redirect response's
`Location` header inside the loop of `safely_resolve_url`: an absolute
`http(s)` location is taken as is, an empty or missing one is kept (the
loop then breaks), and anything else is joined with `urllib.parse.urljoin`
against `url` — the ORIGINAL argument of `safely_resolve_url`, not the
URL of the hop that produced the header. -/
def stepUrl (orig : String) (loc : Option String) : Option String :=
  match loc with
  | none => none
  | some l =>
    some (if begins httpP l.data || begins httpsP l.data then l
          else if l.data.isEmpty then l
          else urljoin orig l)

/-- Result triple of `safely_resolve_url`: final URL (Python `None`
becomes `none`), redirect chain, error message. -/
structure ResolveOut where
  finalUrl : Option String
  chain : List String
  error : Option String
deriving DecidableEq

/-- The `for _ in range(max_redirects)` loop of `safely_resolve_url`,
with the remaining iteration count as fuel.  Each iteration appends the
current URL to the chain, performs the HEAD request (a raised
`RequestException` aborts with the partial chain and an error message),
stops on a non-redirect status, computes the next URL from the `Location`
header, and stops if that is missing or empty.  When the loop exhausts its
iterations, the last computed URL is returned without being appended. -/
def resolveLoop (oracle : Oracle) (orig : String) : Nat → String → ResolveOut
  | 0, current => ⟨some current, [], none⟩
  | Nat.succ n, current =>
    match oracle current with
    | HeadResult.err e => ⟨none, [current], some ("Error resolving URL: " ++ e)⟩
    | HeadResult.resp status loc =>
      if redirectCodes.contains status then
        match stepUrl orig loc with
        | none => ⟨none, [current], none⟩
        | some nxt =>
          if nxt = "" then ⟨some "", [current], none⟩
          else
            ⟨(resolveLoop oracle orig n nxt).finalUrl,
             current :: (resolveLoop oracle orig n nxt).chain,
             (resolveLoop oracle orig n nxt).error⟩
      else ⟨some current, [current], none⟩

/-- Models `safely_resolve_url(url, max_redirects)` (the source's default
for `max_redirects` is 5). -/
def safely_resolve_url (oracle : Oracle) (url : String) (max_redirects : Nat) :
    ResolveOut :=
  resolveLoop oracle url max_redirects url

/-- Models `contains_homoglyphs`: true when some mapped look-alike character
occurs in the text and differs from the letter it imitates.  (The source
also computes `unidecode.unidecode(url)` into `normalized_url`, but that
value is never used; the scan runs on the original text.) -/
def contains_homoglyphs (url : String) : Bool :=
  homoglyph_map.any (fun p => p.2.any (fun h => lmem h url.data && !(h == p.1)))

/-- Models the `idna.decode` call of `detect_homograph_attack` together
with its `IDNAError` fallback: for a domain with no punycode (`xn--`)
label, decoding either returns the ASCII domain unchanged or raises, in
which case the source falls back to the original domain — the identity
either way.  Punycode decoding itself is not modelled; no claim exercises
a punycode domain. -/
def idnaDecodeOrSelf (domain : String) : String := domain

/-- Models `detect_homograph_attack`. -/
def detect_homograph_attack (domain : String) : Bool :=
  contains_homoglyphs (idnaDecodeOrSelf domain)

/-- Models `analyze_redirect_chain`: three independent structural rules,
each appending one risk string. -/
def analyze_redirect_chain (chain : List String) : List String :=
  (if chain.length > 3 then
    ["Suspicious number of redirects: " ++ Nat.repr chain.length]
   else [])
  ++ (if chain.any (fun u => begins httpP u.data) &&
         chain.any (fun u => begins httpsP u.data) then
    ["Mixed HTTP/HTTPS redirects detected"]
   else [])
  ++ (if (dedupF (chain.map (fun u => (tldextract u).suffix))).length > 2 then
    ["Multiple country domains in redirect chain: " ++
      joinWith ", " (dedupF (chain.map (fun u => (tldextract u).suffix)))]
   else [])

/- ---------- analyze_content ---------- -/

/-- The accumulated risk list and risk level while `analyze_content` runs. -/
structure ChkState where
  risks : List String
  level : String
deriving DecidableEq

/-- One conditional check of `analyze_content`: when `cond` holds, append
`msg` to the risks and update the level with `lf`. -/
def appCheck (cond : Bool) (msg : String) (lf : String → String) (st : ChkState) :
    ChkState :=
  if cond then ⟨st.risks ++ [msg], lf st.level⟩ else st

/-- Python's `<` on strings: lexicographic comparison of code points, a
proper prefix being smaller. -/
def listLt : List Char → List Char → Bool
  | [], [] => false
  | [], _ :: _ => true
  | _ :: _, [] => false
  | a :: as, b :: bs =>
    if a.toNat < b.toNat then true
    else if b.toNat < a.toNat then false
    else listLt as bs

/-- Models Python `max(a, b)` on strings: the second argument when it is
strictly greater in code-point lexicographic order, else the first. -/
def pyMax (a b : String) : String := if listLt a.data b.data then b else a

/-- The level update `risk_level = max(risk_level, "MEDIUM")`. -/
def toMed (l : String) : String := pyMax l "MEDIUM"

/-- The level update `risk_level = "HIGH"`. -/
def toHigh (_ : String) : String := "HIGH"

/-- The homoglyph check of `analyze_content`. -/
def homoglyphCheck (content : String) : ChkState → ChkState :=
  appCheck (contains_homoglyphs content)
    "URL contains visually similar characters (homoglyphs)" toMed

/-- The safe-domain membership check of `analyze_content`. -/
def domainCheck (domain : String) : ChkState → ChkState :=
  appCheck (!(safe_domains.contains domain)) ("Unknown domain: " ++ domain) toMed

/-- The homograph-attack check of `analyze_content`. -/
def homographCheck (domain : String) : ChkState → ChkState :=
  appCheck (detect_homograph_attack domain)
    ("Suspicious homograph attack detected in domain: " ++ domain) toHigh

/-- The suspicious-pattern loop of `analyze_content`: one `appCheck` per
pattern, in list order. -/
def patternCheck (content : String) (st : ChkState) : ChkState :=
  suspicious_patterns.foldl
    (fun acc p => appCheck (p.2 content) ("Suspicious pattern found: " ++ p.1) toHigh acc)
    st

/-- The percent-decoding check of `analyze_content`. -/
def unquoteCheck (content : String) : ChkState → ChkState :=
  appCheck (!(pyUnquote content == content)) "URL contains encoded characters" toMed

/-- The subdomain-depth check of `analyze_content`. -/
def subdomainCheck (sub : String) : ChkState → ChkState :=
  appCheck (decide ((splitC '.' sub.data).length > 3)) "Suspicious number of subdomains" toHigh

/-- The checks of `analyze_content` that run after the homoglyph check,
in source order: safe-domain membership, homograph attack, suspicious
patterns, percent decoding, subdomain depth. -/
def restChecks (content : String) (st : ChkState) : ChkState :=
  subdomainCheck (tldextract content).subdomain
    (unquoteCheck content
      (patternCheck content
        (homographCheck ((tldextract content).domain ++ "." ++ (tldextract content).suffix)
          (domainCheck ((tldextract content).domain ++ "." ++ (tldextract content).suffix) st))))

/-- All URL checks of `analyze_content` on the (possibly resolved)
content, in source order. -/
def urlChecks (content : String) (st : ChkState) : ChkState :=
  restChecks content (homoglyphCheck content st)

/-- The shortlink phase of `analyze_content`: when the content is a known
shortener URL, resolve it.  A resolution error records one risk and sets
the level to HIGH; otherwise the chain findings (escalating to HIGH when
nonempty) and the informational chain note are recorded and the content is
replaced by the resolved final URL — which is `None` when resolution
stopped on a missing `Location` header. -/
def shortPhase (oracle : Oracle) (content : String) : Option String × ChkState :=
  if is_shortlink content then
    match (safely_resolve_url oracle content 5).error with
    | some e => (some content, ⟨["Error resolving shortened URL: " ++ e], "HIGH"⟩)
    | none =>
      ((safely_resolve_url oracle content 5).finalUrl,
       ⟨analyze_redirect_chain (safely_resolve_url oracle content 5).chain ++
          ["URL redirect chain: " ++ joinWith " -> " (safely_resolve_url oracle content 5).chain],
        if (analyze_redirect_chain (safely_resolve_url oracle content 5).chain).isEmpty
        then "LOW" else "HIGH"⟩)
  else (some content, ⟨[], "LOW"⟩)

/-- Stands for `str(e)` of the exception Python raises when
`tldextract.extract` is applied to the `None` that `safely_resolve_url`
can return as final URL; the exact wording of the message is not modelled,
only that the top-level handler embeds it after "Error analyzing URL: ". -/
def noneTypeMsg : String := "argument of type NoneType is not a string"

/-- The result dictionary of `analyze_content`. -/
structure AnalysisResult where
  content : Option String
  risk_level : String
  risks : List String
  is_malicious : Bool
  recommendation : String
deriving DecidableEq

/-- The final dictionary literal of `analyze_content`: `is_malicious` is
`risk_level == "HIGH"` and the recommendation is the ternary
`"BLOCK" if HIGH else "WARN" if MEDIUM else "ALLOW"`. -/
def mkResult (content : Option String) (level : String) (risks : List String) :
    AnalysisResult :=
  ⟨content, level, risks, level == "HIGH",
   if level == "HIGH" then "BLOCK" else if level == "MEDIUM" then "WARN" else "ALLOW"⟩

/-- The body of `analyze_content` up to the final dictionary: content,
risk level, risks.  The two paths into the top-level `except` handler are
a `ValueError` from `urlparse` and the `TypeError` from passing the `None`
final URL of a resolved shortlink to `tldextract.extract`; both produce
level UNKNOWN and append "Error analyzing URL: …" to the risks gathered
so far.  A content without a scheme skips every check. -/
def analyzeCore (oracle : Oracle) (content : String) :
    Option String × String × List String :=
  if !(urlparseOk content) then
    (some content, "UNKNOWN", ["Error analyzing URL: Invalid IPv6 URL"])
  else if pyScheme content == "" then
    (some content, "LOW", [])
  else
    match (shortPhase oracle content).1 with
    | none =>
      (none, "UNKNOWN",
       (shortPhase oracle content).2.risks ++ ["Error analyzing URL: " ++ noneTypeMsg])
    | some c2 =>
      (some c2, (urlChecks c2 (shortPhase oracle content).2).level,
       (urlChecks c2 (shortPhase oracle content).2).risks)

/-- Models `analyze_content`. -/
def analyze_content (oracle : Oracle) (content : String) : AnalysisResult :=
  mkResult (analyzeCore oracle content).1 (analyzeCore oracle content).2.1
    (analyzeCore oracle content).2.2

/- ---------- derived notions used in statements ---------- -/

/-- The successor relation realized by one iteration of the loop of
`safely_resolve_url` when the loop continues: from the chain entry `a`, the
next chain entry, if any.  `orig` is the original argument of
`safely_resolve_url`, which the source passes to `urljoin` as the base. -/
def nextOf (oracle : Oracle) (orig a : String) : Option String :=
  match oracle a with
  | HeadResult.err _ => none
  | HeadResult.resp status loc =>
    if redirectCodes.contains status then
      match stepUrl orig loc with
      | none => none
      | some nxt => if nxt = "" then none else some nxt
    else none

/-- The three ordinary severity strings. -/
def okLevel (l : String) : Prop := l = "LOW" ∨ l = "MEDIUM" ∨ l = "HIGH"

/-- The two severity strings at least as severe as MEDIUM. -/
def okLevelMH (l : String) : Prop := l = "MEDIUM" ∨ l = "HIGH"

/- ---------- concrete network oracles for the scenario claims ---------- -/

/-- A network that never redirects. -/
def oracleNone : Oracle := fun _ => HeadResult.resp 200 none

/-- A network on which every request times out. -/
def oracleTimeout : Oracle := fun _ => HeadResult.err "timeout"

/-- A network where the shortener hop redirects absolutely and the second
hop answers with a relative `Location`. -/
def oracleRel : Oracle := fun u =>
  if u == "https://bit.ly/a" then HeadResult.resp 301 (some "https://example.com/x")
  else if u == "https://example.com/x" then HeadResult.resp 301 (some "/y")
  else HeadResult.resp 200 none

/-- A network where a shortener URL containing `'1'` resolves to a clean
final URL without `'1'`. -/
def oracleShort1 : Oracle := fun u =>
  if u == "https://bit.ly/a1" then HeadResult.resp 301 (some "https://example.com/")
  else HeadResult.resp 200 none

/- ====================== helper lemmas ====================== -/

theorem begins_iff_append (p cs : List Char) :
    begins p cs = true ↔ ∃ t, cs = p ++ t := by
  induction p generalizing cs with
  | nil => simp [begins]
  | cons c ps ih =>
    cases cs with
    | nil => simp [begins]
    | cons c2 cs2 =>
      simp only [begins, Bool.and_eq_true, beq_iff_eq, ih, List.cons_append]
      constructor
      · rintro ⟨rfl, t, rfl⟩
        exact ⟨t, rfl⟩
      · rintro ⟨t, ht⟩
        injection ht with h1 h2
        exact ⟨h1.symm, t, h2⟩

theorem https_not_http (cs : List Char) (h : begins httpsP cs = true) :
    begins httpP cs = false := by
  obtain ⟨t, rfl⟩ := (begins_iff_append _ _).mp h
  rfl

/- membership and level behaviour of the individual checks -/

theorem mem_appCheck (c : Bool) (msg : String) (lf : String → String)
    (st : ChkState) (m : String) (h : m ∈ st.risks) :
    m ∈ (appCheck c msg lf st).risks := by
  unfold appCheck
  split
  · exact List.mem_append_left _ h
  · exact h

theorem appCheck_level_pres (P : String → Prop) (c : Bool) (msg : String)
    (lf : String → String) (st : ChkState)
    (hP : P st.level) (hf : P (lf st.level)) :
    P ((appCheck c msg lf st).level) := by
  unfold appCheck
  split
  · exact hf
  · exact hP

theorem toMed_okLevel (l : String) (h : okLevel l) : okLevel (toMed l) := by
  rcases h with h | h | h <;> subst h <;> (unfold okLevel; decide)

theorem toMed_okLevelMH (l : String) (h : okLevelMH l) : okLevelMH (toMed l) := by
  rcases h with h | h <;> subst h <;> (unfold okLevelMH; decide)

theorem appCheck_toMed (P : String → Prop) (hM : ∀ x, P x → P (toMed x))
    (c : Bool) (msg : String) (st : ChkState) (h : P st.level) :
    P ((appCheck c msg toMed st).level) :=
  appCheck_level_pres P c msg toMed st h (hM _ h)

theorem appCheck_toHigh (P : String → Prop) (hH : P "HIGH")
    (c : Bool) (msg : String) (st : ChkState) (h : P st.level) :
    P ((appCheck c msg toHigh st).level) :=
  appCheck_level_pres P c msg toHigh st h hH

theorem foldlCheck_mem (content : String) (m : String) :
    ∀ (l : List (String × (String → Bool))) (st : ChkState), m ∈ st.risks →
      m ∈ (l.foldl
        (fun acc p => appCheck (p.2 content) ("Suspicious pattern found: " ++ p.1) toHigh acc)
        st).risks := by
  intro l
  induction l with
  | nil => intro st h; exact h
  | cons p ps ih =>
    intro st h
    exact ih _ (mem_appCheck _ _ _ _ _ h)

theorem foldlCheck_level (content : String) (P : String → Prop) (hH : P "HIGH") :
    ∀ (l : List (String × (String → Bool))) (st : ChkState), P st.level →
      P ((l.foldl
        (fun acc p => appCheck (p.2 content) ("Suspicious pattern found: " ++ p.1) toHigh acc)
        st).level) := by
  intro l
  induction l with
  | nil => intro st h; exact h
  | cons p ps ih =>
    intro st h
    exact ih _ (appCheck_level_pres P _ _ _ _ h hH)

theorem restChecks_mem (content : String) (st : ChkState) (m : String)
    (h : m ∈ st.risks) : m ∈ (restChecks content st).risks := by
  unfold restChecks subdomainCheck unquoteCheck patternCheck homographCheck domainCheck
  exact mem_appCheck _ _ _ _ _
    (mem_appCheck _ _ _ _ _
      (foldlCheck_mem content m _ _
        (mem_appCheck _ _ _ _ _
          (mem_appCheck _ _ _ _ _ h))))

theorem restChecks_level (content : String) (P : String → Prop)
    (hM : ∀ x, P x → P (toMed x)) (hH : P "HIGH") (st : ChkState)
    (h : P st.level) : P ((restChecks content st).level) := by
  unfold restChecks subdomainCheck unquoteCheck patternCheck homographCheck domainCheck
  exact appCheck_toHigh P hH _ _ _
    (appCheck_toMed P hM _ _ _
      (foldlCheck_level content P hH _ _
        (appCheck_toHigh P hH _ _ _
          (appCheck_toMed P hM _ _ _ h))))

theorem urlChecks_mem (content : String) (st : ChkState) (m : String)
    (h : m ∈ st.risks) : m ∈ (urlChecks content st).risks := by
  unfold urlChecks homoglyphCheck
  exact restChecks_mem content _ m (mem_appCheck _ _ _ _ _ h)

theorem urlChecks_okLevel (content : String) (st : ChkState)
    (h : okLevel st.level) : okLevel ((urlChecks content st).level) := by
  unfold urlChecks homoglyphCheck
  exact restChecks_level content okLevel toMed_okLevel
    (by unfold okLevel; decide) _
    (appCheck_toMed okLevel toMed_okLevel _ _ _ h)

theorem shortPhase_level (oracle : Oracle) (content : String) :
    okLevel ((shortPhase oracle content).2.level) := by
  unfold okLevel shortPhase
  split
  · split
    · right; right; rfl
    · split
      · left; rfl
      · right; right; rfl
  · left; rfl

theorem shortPhase_not_short (oracle : Oracle) (content : String)
    (h : is_shortlink content = false) :
    shortPhase oracle content = (some content, ⟨[], "LOW"⟩) := by
  simp [shortPhase, h]

/- behaviour of the redirect-resolution loop -/

theorem resolveLoop_chain_le (oracle : Oracle) (orig : String) :
    ∀ (n : Nat) (cur : String), ((resolveLoop oracle orig n cur).chain).length ≤ n := by
  intro n
  induction n with
  | zero => intro cur; simp [resolveLoop]
  | succ n ih =>
    intro cur
    cases h : oracle cur with
    | err e => simp [resolveLoop, h]
    | resp status loc =>
      simp only [resolveLoop, h]
      split
      · split
        · simp
        · split
          · simp
          · simpa using Nat.succ_le_succ (ih _)
      · simp

theorem resolveLoop_head (oracle : Oracle) (orig : String) (n : Nat) (cur : String)
    (hn : n ≠ 0) : ((resolveLoop oracle orig n cur).chain).head? = some cur := by
  cases n with
  | zero => exact absurd rfl hn
  | succ n =>
    cases h : oracle cur with
    | err e => simp [resolveLoop, h]
    | resp status loc =>
      simp only [resolveLoop, h]
      split
      · split
        · simp
        · split <;> simp
      · simp

theorem resolveLoop_chain' (oracle : Oracle) (orig : String) :
    ∀ (n : Nat) (cur : String),
      List.Chain' (fun a b => nextOf oracle orig a = some b)
        ((resolveLoop oracle orig n cur).chain) := by
  intro n
  induction n with
  | zero => intro cur; simp [resolveLoop]
  | succ n ih =>
    intro cur
    cases h : oracle cur with
    | err e => simp [resolveLoop, h]
    | resp status loc =>
      simp only [resolveLoop, h]
      split
      next hred =>
        split
        next => simp
        next nxt hs =>
          split
          next => simp
          next hne =>
            show List.Chain' _ (cur :: (resolveLoop oracle orig n nxt).chain)
            rw [List.chain'_cons']
            refine ⟨?_, ih nxt⟩
            intro y hy
            cases n with
            | zero => simp [resolveLoop] at hy
            | succ k =>
              rw [resolveLoop_head oracle orig (k + 1) nxt (Nat.succ_ne_zero k)] at hy
              have hyn : nxt = y := by simpa using hy
              subst hyn
              have hmem : status ∈ redirectCodes := by simpa using hred
              simp [nextOf, h, hs, hne, hmem]
      next => simp


/- classification of the top-level result of analyze_content -/

theorem one_mem_contains_homoglyphs (s : String) (h : '1' ∈ s.data) :
    contains_homoglyphs s = true := by
  unfold contains_homoglyphs
  rw [List.any_eq_true]
  refine ⟨('i', ['і', '1']), by decide, ?_⟩
  rw [List.any_eq_true]
  refine ⟨'1', by decide, ?_⟩
  rw [Bool.and_eq_true]
  constructor
  · unfold lmem
    rw [List.any_eq_true]
    exact ⟨'1', h, by decide⟩
  · decide

theorem analyzeCore_cases (oracle : Oracle) (content : String) :
    okLevel (analyzeCore oracle content).2.1 ∨
    ((analyzeCore oracle content).2.1 = "UNKNOWN" ∧
     ∃ s, ("Error analyzing URL: " ++ s) ∈ (analyzeCore oracle content).2.2) := by
  unfold analyzeCore
  split
  · exact Or.inr ⟨rfl, "Invalid IPv6 URL", by simp⟩
  · split
    · exact Or.inl (Or.inl rfl)
    · split
      · refine Or.inr ⟨rfl, noneTypeMsg, ?_⟩
        simp
      · exact Or.inl (urlChecks_okLevel _ _ (shortPhase_level oracle content))

/- ====================== claim theorems ====================== -/

/-- C1: the claim that severity is monotonic non-decreasing is violated by
the code.  On the input "https://example.com/login%20x" (no network use)
the suspicious-pattern check fires and sets risk_level to HIGH, but the
subsequent percent-decoding check computes max("HIGH", "MEDIUM") under
Python's lexicographic string order, which is "MEDIUM"; the analysis
therefore ends at MEDIUM/WARN although a HIGH-triggering check fired. -/
theorem c1_severity_lowered_after_high :
    ("Suspicious pattern found: (?i)login"
        ∈ (analyze_content oracleNone "https://example.com/login%20x").risks)
    ∧ ("URL contains encoded characters"
        ∈ (analyze_content oracleNone "https://example.com/login%20x").risks)
    ∧ (analyze_content oracleNone "https://example.com/login%20x").risk_level = "MEDIUM"
    ∧ (analyze_content oracleNone "https://example.com/login%20x").recommendation = "WARN"
    ∧ (analyze_content oracleNone "https://example.com/login%20x").is_malicious = false := by
  decide

/-- C2: the claim that a resolver failure forces HIGH/BLOCK is violated by
the code.  With a network that times out on the first hop, analyzing the
shortener URL "https://bit.ly/abc" does record the "Error resolving
shortened URL" risk and sets HIGH, but the later unknown-domain check
lowers the level to MEDIUM via the lexicographic max, so the result is
MEDIUM/WARN, not HIGH/BLOCK. -/
theorem c2_resolver_error_ends_warn :
    (analyze_content oracleTimeout "https://bit.ly/abc").risks =
      ["Error resolving shortened URL: Error resolving URL: timeout",
       "Unknown domain: bit.ly"]
    ∧ (analyze_content oracleTimeout "https://bit.ly/abc").risk_level = "MEDIUM"
    ∧ (analyze_content oracleTimeout "https://bit.ly/abc").recommendation = "WARN" := by
  decide

/-- C3, counterexample: on "http://[" (urlparse raises ValueError) the
result has severity UNKNOWN but recommendation ALLOW — not WARN or BLOCK
as the claim demands. -/
theorem c3_unknown_maps_to_allow :
    (analyze_content oracleNone "http://[").risk_level = "UNKNOWN"
    ∧ (analyze_content oracleNone "http://[").recommendation = "ALLOW"
    ∧ ¬((analyze_content oracleNone "http://[").recommendation = "WARN"
        ∨ (analyze_content oracleNone "http://[").recommendation = "BLOCK") := by
  decide

/-- C3 (amended): the recommendation is the pure function of the final
severity given by HIGH→BLOCK, MEDIUM→WARN, and everything else — LOW and
UNKNOWN alike — →ALLOW; in particular an UNKNOWN severity yields ALLOW,
not WARN or BLOCK. -/
theorem c3_recommendation_pure_of_level (oracle : Oracle) (content : String) :
    (analyze_content oracle content).recommendation =
      (if (analyze_content oracle content).risk_level == "HIGH" then "BLOCK"
       else if (analyze_content oracle content).risk_level == "MEDIUM" then "WARN"
       else "ALLOW")
    ∧ ((analyze_content oracle content).risk_level = "UNKNOWN" →
        (analyze_content oracle content).recommendation = "ALLOW") := by
  constructor
  · rfl
  · intro h
    have h1 : (analyze_content oracle content).recommendation =
        (if (analyze_content oracle content).risk_level == "HIGH" then "BLOCK"
         else if (analyze_content oracle content).risk_level == "MEDIUM" then "WARN"
         else "ALLOW") := rfl
    rw [h1, h]
    rfl

/-- C3 witness: the amended mapping applied at the concrete UNKNOWN input. -/
theorem c3_recommendation_pure_of_level_witness :
    (analyze_content oracleNone "http://[").risk_level = "UNKNOWN"
    ∧ (analyze_content oracleNone "http://[").recommendation = "ALLOW" :=
  ⟨by decide, (c3_recommendation_pure_of_level oracleNone "http://[").2 (by decide)⟩

/-- C4, counterexample: the shortener hop answers 301 to the absolute
"https://example.com/x", whose own response carries the relative Location
"/y".  The code joins "/y" against the ORIGINAL url "https://bit.ly/a",
producing "https://bit.ly/y"; joining against the most recently visited
URL would have produced "https://example.com/y", which never appears in
the chain. -/
theorem c4_relative_location_joined_to_origin :
    (safely_resolve_url oracleRel "https://bit.ly/a" 5).chain =
      ["https://bit.ly/a", "https://example.com/x", "https://bit.ly/y"]
    ∧ urljoin "https://example.com/x" "/y" = "https://example.com/y"
    ∧ "https://example.com/y" ∉ (safely_resolve_url oracleRel "https://bit.ly/a" 5).chain := by
  decide

/-- C4 (amended): during redirect resolution, a Location header that does
not start with `http://` or `https://` is resolved by urljoin against the
ORIGINAL input URL of safely_resolve_url (the chain's first entry), not
against the most recently visited URL: for every network and every hop
bound, consecutive chain entries are related by `nextOf`, whose urljoin
base is the original url argument.  (Chain entries need not be http(s)
URLs: a Location carrying a foreign scheme, such as `ftp://evil/x`, is
returned by urljoin unchanged and appended as-is.) -/
theorem c4_join_base_is_original (oracle : Oracle) (url : String) (m : Nat) :
    List.Chain' (fun a b => nextOf oracle url a = some b)
      ((safely_resolve_url oracle url m).chain) :=
  resolveLoop_chain' oracle url m url

/-- C5: analyze_content is a total function of its input (the embedding of
the top-level try/except), and whenever the returned severity is UNKNOWN —
exactly the internal-failure paths — the risks sequence carries a
descriptive "Error analyzing URL: …" string. -/
theorem c5_unknown_carries_error_string (oracle : Oracle) (content : String)
    (h : (analyze_content oracle content).risk_level = "UNKNOWN") :
    ∃ s, ("Error analyzing URL: " ++ s) ∈ (analyze_content oracle content).risks := by
  rcases analyzeCore_cases oracle content with hok | ⟨_, hex⟩
  · exfalso
    have h' : (analyzeCore oracle content).2.1 = "UNKNOWN" := h
    rw [h'] at hok
    unfold okLevel at hok
    rcases hok with e | e | e <;> exact absurd e (by decide)
  · exact hex

/-- C5 witness: the theorem applied at the concrete failing parse. -/
theorem c5_unknown_carries_error_string_witness :
    (analyze_content oracleNone "http://[").risk_level = "UNKNOWN"
    ∧ ∃ s, ("Error analyzing URL: " ++ s) ∈ (analyze_content oracleNone "http://[").risks :=
  ⟨by decide, c5_unknown_carries_error_string oracleNone "http://[" (by decide)⟩

/-- C6: with the default bound of 5 redirects, the chain returned by
safely_resolve_url never has more than maxHops + 1 = 6 entries, whatever
the network answers (in fact the loop appends at most 5). -/
theorem c6_chain_length_bound (oracle : Oracle) (url : String) :
    ((safely_resolve_url oracle url 5).chain).length ≤ 5 + 1 :=
  Nat.le_succ_of_le (resolveLoop_chain_le oracle url 5 url)

/-- C7: a chain of length at most 3, all of whose entries start with
https://, spanning at most 2 distinct suffixes, yields no risks; and each
of the three rules appends its risk string independently: length > 3, the
presence of both an http:// and an https:// entry, and more than 2
distinct suffixes. -/
theorem c7_redirect_chain_rules (chain : List String) :
    (chain.length ≤ 3 →
      (∀ u ∈ chain, begins httpsP u.data = true) →
      (dedupF (chain.map (fun u => (tldextract u).suffix))).length ≤ 2 →
      analyze_redirect_chain chain = [])
    ∧ (chain.length > 3 →
        ("Suspicious number of redirects: " ++ Nat.repr chain.length) ∈
          analyze_redirect_chain chain)
    ∧ (chain.any (fun u => begins httpP u.data) = true →
       chain.any (fun u => begins httpsP u.data) = true →
        "Mixed HTTP/HTTPS redirects detected" ∈ analyze_redirect_chain chain)
    ∧ ((dedupF (chain.map (fun u => (tldextract u).suffix))).length > 2 →
        ("Multiple country domains in redirect chain: " ++
          joinWith ", " (dedupF (chain.map (fun u => (tldextract u).suffix)))) ∈
          analyze_redirect_chain chain) := by
  refine ⟨?_, ?_, ?_, ?_⟩
  · intro h1 h2 h3
    have hhttp : chain.any (fun u => begins httpP u.data) = false := by
      rw [List.any_eq_false]
      intro u hu
      rw [https_not_http u.data (h2 u hu)]
      simp
    have e1 : ¬(chain.length > 3) := by omega
    have e3 : ¬((dedupF (chain.map (fun u => (tldextract u).suffix))).length > 2) := by
      omega
    unfold analyze_redirect_chain
    rw [if_neg e1, hhttp, if_neg e3]
    simp
  · intro h
    unfold analyze_redirect_chain
    rw [if_pos h]
    simp
  · intro ha hb
    unfold analyze_redirect_chain
    rw [ha, hb]
    simp
  · intro h
    unfold analyze_redirect_chain
    rw [if_pos h]
    simp

/-- C7 witness: the empty verdict on a short all-https chain, and all three
rules firing on a long, mixed, three-suffix chain. -/
theorem c7_redirect_chain_rules_witness :
    analyze_redirect_chain ["https://a.com/", "https://b.com/x"] = []
    ∧ ("Suspicious number of redirects: " ++
        Nat.repr (["http://a.com/", "https://b.org/", "https://c.ly/",
          "https://d.com/x"] : List String).length) ∈
        analyze_redirect_chain
          ["http://a.com/", "https://b.org/", "https://c.ly/", "https://d.com/x"]
    ∧ "Mixed HTTP/HTTPS redirects detected" ∈
        analyze_redirect_chain
          ["http://a.com/", "https://b.org/", "https://c.ly/", "https://d.com/x"]
    ∧ ("Multiple country domains in redirect chain: " ++
        joinWith ", " (dedupF ((["http://a.com/", "https://b.org/", "https://c.ly/",
          "https://d.com/x"] : List String).map (fun u => (tldextract u).suffix)))) ∈
        analyze_redirect_chain
          ["http://a.com/", "https://b.org/", "https://c.ly/", "https://d.com/x"] :=
  ⟨(c7_redirect_chain_rules _).1 (by decide) (by decide) (by decide),
   (c7_redirect_chain_rules _).2.1 (by decide),
   (c7_redirect_chain_rules _).2.2.1 (by decide) (by decide),
   (c7_redirect_chain_rules _).2.2.2 (by decide)⟩

/-- C8: the trusted URL "https://github.com/foo" is analyzed as LOW risk,
ALLOW, with no risks recorded. -/
theorem c8_trusted_github_low :
    analyze_content oracleNone "https://github.com/foo" =
      ⟨some "https://github.com/foo", "LOW", [], false, "ALLOW"⟩ := by
  decide

/-- C9: a pure-ASCII string containing no character of the confusable set
is never flagged by contains_homoglyphs. -/
theorem c9_ascii_no_confusables (s : String)
    (hA : ∀ c ∈ s.data, c.toNat < 128)
    (hC : ∀ c ∈ confusables, c ∉ s.data) :
    contains_homoglyphs s = false := by
  unfold contains_homoglyphs
  rw [List.any_eq_false]
  intro p hp
  intro hx
  rw [List.any_eq_true] at hx
  obtain ⟨hg, hhg, hcond⟩ := hx
  rw [Bool.and_eq_true] at hcond
  have hmem : hg ∈ confusables := by
    unfold confusables
    exact List.mem_join.mpr ⟨p.2, List.mem_map_of_mem _ hp, hhg⟩
  apply hC hg hmem
  rcases hcond with ⟨hl, _⟩
  unfold lmem at hl
  rw [List.any_eq_true] at hl
  obtain ⟨x, hx2, hbe⟩ := hl
  have hxe : x = hg := by simpa using hbe
  rw [hxe] at hx2
  exact hx2

/-- C9 witness: the theorem applied at a concrete ASCII URL. -/
theorem c9_ascii_no_confusables_witness :
    (∀ c ∈ "https://amazon.com/shop".data, c.toNat < 128)
    ∧ (∀ c ∈ confusables, c ∉ "https://amazon.com/shop".data)
    ∧ contains_homoglyphs "https://amazon.com/shop" = false :=
  ⟨by decide, by decide,
   c9_ascii_no_confusables "https://amazon.com/shop" (by decide) (by decide)⟩

/-- C10, counterexample: the shortener URL "https://bit.ly/a1" contains the
character '1', yet its analysis (resolving to a clean final URL) records no
homoglyph risk note, because the homoglyph check runs on the resolved
content, not on the original text. -/
theorem c10_shortlink_one_no_note :
    '1' ∈ "https://bit.ly/a1".data
    ∧ is_shortlink "https://bit.ly/a1" = true
    ∧ "URL contains visually similar characters (homoglyphs)"
        ∉ (analyze_content oracleShort1 "https://bit.ly/a1").risks := by
  decide

/-- C10 (amended): the digit '1' is listed as a confusable for both 'i' and
'l'; every string containing '1' makes contains_homoglyphs true; and every
parse-clean URL with a scheme that is NOT a shortener link (so that the
homoglyph check runs on the original text) and contains '1' gets the
homoglyph risk note and a final severity of MEDIUM or HIGH. -/
theorem c10_digit_one_homoglyph :
    (('i', ['і', '1']) ∈ homoglyph_map ∧ ('l', ['і', '1']) ∈ homoglyph_map)
    ∧ (∀ s : String, '1' ∈ s.data → contains_homoglyphs s = true)
    ∧ (∀ (oracle : Oracle) (c : String),
        urlparseOk c = true → ¬(pyScheme c = "") → is_shortlink c = false →
        '1' ∈ c.data →
        ("URL contains visually similar characters (homoglyphs)"
            ∈ (analyze_content oracle c).risks
         ∧ ((analyze_content oracle c).risk_level = "MEDIUM"
            ∨ (analyze_content oracle c).risk_level = "HIGH"))) := by
  refine ⟨⟨by decide, by decide⟩, one_mem_contains_homoglyphs, ?_⟩
  intro oracle c hok hsch hshort h1
  have hsch' : (pyScheme c == "") = false := by
    rw [beq_eq_false_iff_ne]
    exact hsch
  have hcore : analyzeCore oracle c =
      (some c, (urlChecks c ⟨[], "LOW"⟩).level, (urlChecks c ⟨[], "LOW"⟩).risks) := by
    unfold analyzeCore
    simp [hok, hsch', shortPhase_not_short oracle c hshort]
  have hcg := one_mem_contains_homoglyphs c h1
  have hhg : homoglyphCheck c ⟨[], "LOW"⟩ =
      ⟨["URL contains visually similar characters (homoglyphs)"], "MEDIUM"⟩ := by
    unfold homoglyphCheck appCheck
    rw [if_pos hcg]
    have hm : toMed "LOW" = "MEDIUM" := by decide
    rw [hm]
    rfl
  constructor
  · have hr : (analyze_content oracle c).risks = (urlChecks c ⟨[], "LOW"⟩).risks := by
      show (analyzeCore oracle c).2.2 = _
      rw [hcore]
    rw [hr]
    unfold urlChecks
    rw [hhg]
    exact restChecks_mem c _ _ (by simp)
  · have hl : (analyze_content oracle c).risk_level = (urlChecks c ⟨[], "LOW"⟩).level := by
      show (analyzeCore oracle c).2.1 = _
      rw [hcore]
    rw [hl]
    unfold urlChecks
    rw [hhg]
    exact restChecks_level c okLevelMH toMed_okLevelMH
      (by unfold okLevelMH; decide) _ (Or.inl rfl)

/-- C10 witness: the amended statement applied at concrete inputs. -/
theorem c10_digit_one_homoglyph_witness :
    contains_homoglyphs "a1b" = true
    ∧ urlparseOk "https://ex1ample.com/" = true
    ∧ ¬(pyScheme "https://ex1ample.com/" = "")
    ∧ is_shortlink "https://ex1ample.com/" = false
    ∧ '1' ∈ "https://ex1ample.com/".data
    ∧ ("URL contains visually similar characters (homoglyphs)"
          ∈ (analyze_content oracleNone "https://ex1ample.com/").risks
       ∧ ((analyze_content oracleNone "https://ex1ample.com/").risk_level = "MEDIUM"
          ∨ (analyze_content oracleNone "https://ex1ample.com/").risk_level = "HIGH")) :=
  ⟨(c10_digit_one_homoglyph).2.1 "a1b" (by decide),
   by decide, by decide, by decide, by decide,
   (c10_digit_one_homoglyph).2.2 oracleNone "https://ex1ample.com/"
     (by decide) (by decide) (by decide) (by decide)⟩

end QrSec
